import Mathlib

/-!
Verification of the sphinx-tribes ticket/feature/bounty/chat/metrics slice.

The Go code under review is a set of HTTP handlers over a relational store.
We shallow-embed it: the store is an explicit in-memory state (lists of
rows), each db-layer function is a pure Lean function threading that state,
and each handler is a function from the decoded request (JSON decoding
itself is outside the claims) and the state to an HTTP status plus the new
state.  Clock values (time.Now) and generated identifiers (xid.New) are
passed as parameters.  Go machine integers are modelled as Nat / Int with
explicit wrap where overflow matters.
-/

namespace SphinxTribes

/-! ## Ticket status (db package constants)

The TicketStatus constants are defined in db code that is not under src/;
their names appear in src/db/tickets.go and the spec enumerates the seven
values (draft, ready, in-progress, test, deploy, pay, completed), which we
use as the string values. -/

def DraftTicket : String := "draft"

def ReadyTicket : String := "ready"

def InProgressTicket : String := "in-progress"

def TestTicket : String := "test"

def DeployTicket : String := "deploy"

def PayTicket : String := "pay"

def CompletedTicket : String := "completed"

/-- IsValidTicketStatus (src/db/tickets.go:75): membership in the seven
enumerated ticket statuses. -/
def IsValidTicketStatus (status : String) : Bool :=
  status = DraftTicket || status = ReadyTicket || status = InProgressTicket ||
  status = TestTicket || status = DeployTicket || status = PayTicket ||
  status = CompletedTicket

/-! ## Data model

Row structs live in db code not under src/; the fields below are the ones
read or written by the operations under review.  Go uuid.UUID values are
modelled as strings, with uuid.Nil (the zero UUID) modelled as the empty
string; times as Nat ticks. -/

def uuidNil : String := ""

structure Tickets where
  uuid : String
  name : String
  description : String
  status : String
  featureUUID : String
  phaseUUID : String
  createdAt : Nat
  updatedAt : Nat
deriving Repr, DecidableEq

structure Workspace where
  uuid : String
  ownerPubKey : String
  name : String
deriving Repr, DecidableEq

/-- Go zero value of the Workspace struct (what a missed gorm lookup leaves
in the destination). -/
instance : Inhabited Workspace := ⟨⟨"", "", ""⟩⟩

structure WorkspaceFeatures where
  id : Nat
  uuid : String
  workspaceUuid : String
  name : String
  createdBy : String
  updatedBy : String
deriving Repr, DecidableEq

/-- Go zero value of the WorkspaceFeatures struct; in particular ID = 0,
which is how callers detect a missed lookup (features.go:448). -/
instance : Inhabited WorkspaceFeatures := ⟨⟨0, "", "", "", "", ""⟩⟩

structure FeatureStory where
  uuid : String
  description : String
  featureUuid : String
  createdBy : String
  updatedBy : String
  created : Nat
  updated : Nat
deriving Repr, DecidableEq

structure NewBounty where
  title : String
  description : String
  phaseUuid : String
  featureUuid : String
  workspaceUuid : String
  ownerID : String
  type : String
  wantedType : String
  price : Nat
  created : Nat
  showFlag : Bool
  codingLanguages : List String
deriving Repr, DecidableEq

/-- The relational store: one list of rows per table touched by the
operations under review. -/
structure DBState where
  workspaces : List Workspace
  features : List WorkspaceFeatures
  stories : List FeatureStory
  tickets : List Tickets
  bounties : List NewBounty
deriving Repr, DecidableEq

/-! ## db layer -/

/-- db.GetFeatureByUuid: not under src/; modelled as the gorm
lookup-by-uuid its callers rely on, returning the Go zero value when no row
matches (features.go checks feature.ID == 0, resp. a Uuid mismatch, to
detect a miss). -/
def getFeatureByUuid (s : DBState) (uuid : String) : WorkspaceFeatures :=
  (s.features.find? (fun f => f.uuid == uuid)).getD default

/-- db.GetWorkspaceByUuid: not under src/; modelled as the gorm
lookup-by-uuid its callers rely on, returning the Go zero value when no row
matches (features.go:80 compares the returned Uuid against the requested
one to detect a miss). -/
def getWorkspaceByUuid (s : DBState) (uuid : String) : Workspace :=
  (s.workspaces.find? (fun w => w.uuid == uuid)).getD default

/-- gorm Updates with a struct argument applies only the non-zero fields of
the incoming struct to the existing row (src/db/tickets.go:47 and :114);
modelled column by column, the zero value being the empty string for string
columns and 0 for time columns. -/
def mergeNonZero (existing incoming : Tickets) : Tickets where
  uuid := if incoming.uuid ≠ "" then incoming.uuid else existing.uuid
  name := if incoming.name ≠ "" then incoming.name else existing.name
  description :=
    if incoming.description ≠ "" then incoming.description else existing.description
  status := if incoming.status ≠ "" then incoming.status else existing.status
  featureUUID :=
    if incoming.featureUUID ≠ "" then incoming.featureUUID else existing.featureUUID
  phaseUUID :=
    if incoming.phaseUUID ≠ "" then incoming.phaseUUID else existing.phaseUUID
  createdAt := if incoming.createdAt ≠ 0 then incoming.createdAt else existing.createdAt
  updatedAt := if incoming.updatedAt ≠ 0 then incoming.updatedAt else existing.updatedAt

/-- gorm updates the single row found by First; modelled as replacing the
first list entry whose uuid matches. -/
def replaceFirstTicket : List Tickets → String → Tickets → List Tickets
  | [], _, _ => []
  | e :: rest, u, m =>
      if e.uuid = u then m :: rest else e :: replaceFirstTicket rest u m

/-- db.CreateOrEditTicket (src/db/tickets.go:14): rejects a nil UUID and an
invalid non-empty status; inserts (defaulting status to draft) when no row
with the UUID exists, otherwise applies a non-zero-fields update and
returns the re-fetched row. -/
def createOrEditTicket (s : DBState) (ticket : Tickets) (now : Nat) :
    Except String Tickets × DBState :=
  if ticket.uuid = uuidNil then (.error "ticket UUID is required", s)
  else if ticket.status ≠ "" ∧ IsValidTicketStatus ticket.status = false then
    (.error "invalid ticket status", s)
  else
    let found := s.tickets.find? (fun e => e.uuid == ticket.uuid)
    let t := { ticket with updatedAt := now }
    match found with
    | none =>
        let t := { t with createdAt := now,
                          status := if t.status = "" then DraftTicket else t.status }
        (.ok t, { s with tickets := s.tickets ++ [t] })
    | some existing =>
        let merged := mergeNonZero existing t
        (.ok merged, { s with tickets := replaceFirstTicket s.tickets ticket.uuid merged })

/-- db.UpdateTicket (src/db/tickets.go:84): same validation, insert and
non-zero-fields update behaviour as CreateOrEditTicket (the two differ only
in Go error-branch nesting). -/
def updateTicket (s : DBState) (ticket : Tickets) (now : Nat) :
    Except String Tickets × DBState :=
  if ticket.uuid = uuidNil then (.error "ticket UUID is required", s)
  else if ticket.status ≠ "" ∧ IsValidTicketStatus ticket.status = false then
    (.error "invalid ticket status", s)
  else
    let found := s.tickets.find? (fun e => e.uuid == ticket.uuid)
    let t := { ticket with updatedAt := now }
    match found with
    | none =>
        let t := { t with createdAt := now,
                          status := if t.status = "" then DraftTicket else t.status }
        (.ok t, { s with tickets := s.tickets ++ [t] })
    | some existing =>
        let merged := mergeNonZero existing t
        (.ok merged, { s with tickets := replaceFirstTicket s.tickets ticket.uuid merged })

/-- db.GetTicket (src/db/tickets.go:59): Find by uuid; zero rows affected
is reported as the error "ticket not found". -/
def getTicket (s : DBState) (uuid : String) : Except String Tickets :=
  match s.tickets.find? (fun t => t.uuid == uuid) with
  | some t => .ok t
  | none => .error "ticket not found"

/-- db.CreateBountyFromTicket (src/db/tickets.go:208): reads the ticket's
feature to obtain its workspace and inserts a bounty with the fixed
conversion fields. -/
def createBountyFromTicket (s : DBState) (ticket : Tickets) (pubkey : String)
    (now : Nat) : NewBounty × DBState :=
  let feature := getFeatureByUuid s ticket.featureUUID
  let bounty : NewBounty :=
    { title := ticket.name
      description := ticket.description
      phaseUuid := ticket.phaseUUID
      featureUuid := ticket.featureUUID
      workspaceUuid := feature.workspaceUuid
      ownerID := pubkey
      type := "freelance_job_request"
      wantedType := "Other"
      price := 21
      created := now
      showFlag := true
      codingLanguages := [] }
  (bounty, { s with bounties := s.bounties ++ [bounty] })

/-- Modelled from the spec: db.CreateOrEditFeature is not under src/; per
the spec (section 3) features are created via upsert-by-UUID. -/
def createOrEditFeature (s : DBState) (f : WorkspaceFeatures) :
    WorkspaceFeatures × DBState :=
  match s.features.find? (fun e => e.uuid == f.uuid) with
  | none => (f, { s with features := s.features ++ [f] })
  | some _ =>
      (f, { s with features := s.features.map (fun e => if e.uuid == f.uuid then f else e) })

/-- Modelled from the spec: db.CreateOrEditFeatureStory is not under src/;
per the spec (section 3) stories are upserted by UUID within a feature, and
the handler under review always supplies a fresh UUID, so the insert branch
is the one exercised. -/
def createOrEditFeatureStory (s : DBState) (st : FeatureStory) : DBState :=
  match s.stories.find? (fun e => e.uuid == st.uuid && e.featureUuid == st.featureUuid) with
  | none => { s with stories := s.stories ++ [st] }
  | some _ =>
      { s with stories := s.stories.map (fun e => if e.uuid == st.uuid then st else e) }

/-- Modelled from the spec: db.GetBountiesByFeatureAndPhaseUuid is not
under src/ (only its handler is).  Per the spec (section 4.3) it returns
the bounties linked to the feature/phase pair and reports not-found when
zero bounties match; the optional filter/sort/pagination parameters are
outside the claims and omitted. -/
def getBountiesByFeatureAndPhaseUuidDb (s : DBState)
    (featureUuid phaseUuid : String) : Except String (List NewBounty) :=
  let bs := s.bounties.filter
    (fun b => b.featureUuid == featureUuid && b.phaseUuid == phaseUuid)
  if bs.isEmpty then .error "no bounties found" else .ok bs

/-! ## HTTP handlers -/

/-- An HTTP outcome: the status code written and the store after the
handler returns. -/
structure HandlerResult where
  status : Nat
  db : DBState
deriving Repr, DecidableEq

/-- The audit-field preamble of handlers.CreateOrEditFeatures
(src/handlers/features.go:62): CreatedBy is set from the caller identity;
an absent UUID is generated server-side, a present one marks the caller as
UpdatedBy. -/
def featuresWithAudit (pubKeyFromAuth : String) (f : WorkspaceFeatures)
    (newUuid : String) : WorkspaceFeatures :=
  let f := { f with createdBy := pubKeyFromAuth }
  if f.uuid = "" then { f with uuid := newUuid } else { f with updatedBy := pubKeyFromAuth }

/-- handlers.CreateOrEditFeatures (src/handlers/features.go:42).  The JSON
body is taken as already decoded (the 406 decode-failure branch is outside
the claims).  db.Validate.Struct runs against struct tags not under src/,
so the validator is an arbitrary parameter. -/
def createOrEditFeatures (s : DBState) (pubKeyFromAuth : String)
    (features : WorkspaceFeatures) (newUuid : String)
    (valid : WorkspaceFeatures → Bool) : HandlerResult :=
  if pubKeyFromAuth = "" then ⟨401, s⟩
  else
    let features := featuresWithAudit pubKeyFromAuth features newUuid
    if valid features = false then ⟨400, s⟩
    else
      let workspace := getWorkspaceByUuid s features.workspaceUuid
      if workspace.uuid ≠ features.workspaceUuid then ⟨401, s⟩
      else
        let r := createOrEditFeature s features
        ⟨200, r.snd⟩

/-- Outcome of the ticket-to-bounty handler: status, store, and the bounty
returned on success. -/
structure TicketToBountyResult where
  status : Nat
  db : DBState
  bounty : Option NewBounty
deriving Repr, DecidableEq

/-- Modelled from the spec: the TicketToBounty HTTP handler is not under
src/ (only its tests are).  Per the spec (section 4.2) and the test table
(src/unnamed/part_002, TestTicketToBounty): a missing caller identity
yields 401, a missing ticket UUID parameter yields 400, a ticket that
db.GetTicket cannot find yields 404, and otherwise the bounty derived by
db.CreateBountyFromTicket is persisted and 201 returned. -/
def ticketToBounty (s : DBState) (pubKeyFromAuth ticketUuid : String)
    (now : Nat) : TicketToBountyResult :=
  if pubKeyFromAuth = "" then ⟨401, s, none⟩
  else if ticketUuid = "" then ⟨400, s, none⟩
  else
    match getTicket s ticketUuid with
    | .error _ => ⟨404, s, none⟩
    | .ok t =>
        let r := createBountyFromTicket s t pubKeyFromAuth now
        ⟨201, r.snd, some r.fst⟩

/-- handlers.GetBountiesByFeatureAndPhaseUuid
(src/handlers/features.go:382): 401 without a caller identity, 404 when the
db query errors, 200 otherwise. -/
def getBountiesByFeatureAndPhaseUuid (s : DBState)
    (pubKeyFromAuth featureUuid phaseUuid : String) : HandlerResult :=
  if pubKeyFromAuth = "" then ⟨401, s⟩
  else
    match getBountiesByFeatureAndPhaseUuidDb s featureUuid phaseUuid with
    | .error _ => ⟨404, s⟩
    | .ok _ => ⟨200, s⟩

/-- One story of the webhook payload decoded by handlers.GetFeatureStories
(db.FeatureStories; field names from the test setup in
src/unnamed/part_000). -/
structure FeatureStories where
  userStory : String
  rationale : String
  order : Nat
deriving Repr, DecidableEq

structure FeatureOutput where
  featureUuid : String
  featureContext : String
  stories : List FeatureStories
deriving Repr, DecidableEq

/-- The webhook payload struct (db.FeatureStoriesReponse, name as in the
source). -/
structure FeatureStoriesReponse where
  output : FeatureOutput
deriving Repr, DecidableEq

/-- The per-story loop of handlers.GetFeatureStories
(src/handlers/features.go:444): each iteration re-reads the feature by the
payload's feature UUID, skips the story when the lookup misses
(feature.ID == 0), and otherwise inserts a fresh-UUID story.  ids supplies
the xid generated for the i-th iteration. -/
def getFeatureStoriesLoop (s : DBState) (featureUuid : String)
    (stories : List FeatureStories) (ids : Nat → String) (i : Nat)
    (now : Nat) : DBState :=
  match stories with
  | [] => s
  | story :: rest =>
      let feature := getFeatureByUuid s featureUuid
      if feature.id = 0 then
        getFeatureStoriesLoop s featureUuid rest ids (i + 1) now
      else
        let st : FeatureStory :=
          { uuid := ids i, description := story.userStory,
            featureUuid := featureUuid, createdBy := "", updatedBy := "",
            created := now, updated := now }
        getFeatureStoriesLoop (createOrEditFeatureStory s st) featureUuid rest ids
          (i + 1) now

/-- handlers.GetFeatureStories (src/handlers/features.go:424): decoded
payload assumed (the 406 decode-failure branch is outside the claims);
loops over the stories and always answers 200. -/
def getFeatureStories (s : DBState) (payload : FeatureStoriesReponse)
    (ids : Nat → String) (now : Nat) : HandlerResult :=
  ⟨200, getFeatureStoriesLoop s payload.output.featureUuid payload.output.stories ids 0 now⟩

/-! ## Chat (src/unnamed/part_001) -/

structure ChatMessage where
  id : String
  chatID : String
  message : String
  role : String
  timestamp : Nat
  status : String
  source : String
deriving Repr, DecidableEq

/-- The chat slice of the store: product briefs per workspace UUID and the
append-only message table. -/
structure ChatState where
  briefs : List (String × String)
  messages : List ChatMessage
deriving Repr, DecidableEq

/-- Modelled from the spec: db.GetProductBrief is not under src/; it
resolves the workspace's product brief, failing when the workspace is
unknown. -/
def getProductBrief (s : ChatState) (workspaceUuid : String) :
    Except String String :=
  match s.briefs.find? (fun p => p.fst == workspaceUuid) with
  | some p => .ok p.snd
  | none => .error "workspace not found"

/-- Modelled from the spec: db.GetChatMessagesForChatID is not under src/;
it returns the chat's stored messages in chronological order (the store
being append-only, insertion order). -/
def getChatMessagesForChatID (s : ChatState) (chatID : String) :
    List ChatMessage :=
  s.messages.filter (fun m => m.chatID == chatID)

/-- Modelled from the spec: db.AddChatMessage is not under src/; messages
are append-only (spec section 3). -/
def addChatMessage (s : ChatState) (m : ChatMessage) : ChatState :=
  { s with messages := s.messages ++ [m] }

/-- Modelled from the spec: db.UpdateChatMessage is not under src/; status
transitions happen in place on the stored message (spec section 3). -/
def updateChatMessage (s : ChatState) (m : ChatMessage) : ChatState :=
  { s with messages := s.messages.map (fun e => if e.id == m.id then m else e) }

/-- The decoded SendMessage request body (src/unnamed/part_001:209). -/
structure SendMessageRequest where
  chatID : String
  message : String
  sourceWebsocketID : String
  workspaceUUID : String
deriving Repr, DecidableEq

/-- One entry of the history block of the Stakwork payload
(src/unnamed/part_001:264). -/
structure HistEntry where
  role : String
  content : String
deriving Repr, DecidableEq

/-- Outcome of the SendMessage handler: HTTP status, the history block of
the payload handed to the workflow engine (none when no dispatch was
attempted), the store at the moment of dispatch, and the final store. -/
structure SendMessageOutcome where
  status : Nat
  payloadHistory : Option (List HistEntry)
  dbAtDispatch : Option ChatState
  db : ChatState
deriving Repr, DecidableEq

/-- ChatHandler.SendMessage (src/unnamed/part_001:207): requires a
non-empty workspace UUID (else 400); resolves the product brief (miss is
500); takes the last 20 stored messages of the chat as the payload's
history; persists the new user message with status sending; then
dispatches.  The external dispatch result is the dispatchOk parameter; on
dispatch failure the persisted message is marked error and 500 returned,
on success 200.  newId is the xid generated for the message, now the
clock. -/
def sendMessage (s : ChatState) (req : SendMessageRequest) (newId : String)
    (now : Nat) (dispatchOk : Bool) : SendMessageOutcome :=
  if req.workspaceUUID = "" then ⟨400, none, none, s⟩
  else
    match getProductBrief s req.workspaceUUID with
    | .error _ => ⟨500, none, none, s⟩
    | .ok _ =>
        let history := getChatMessagesForChatID s req.chatID
        let start := if history.length > 20 then history.length - 20 else 0
        let recentHistory := history.drop start
        let messageHistory := recentHistory.map (fun m => HistEntry.mk m.role m.message)
        let message : ChatMessage :=
          { id := newId, chatID := req.chatID, message := req.message,
            role := "user", timestamp := now, status := "sending",
            source := "user" }
        let s2 := addChatMessage s message
        if dispatchOk then ⟨200, some messageHistory, some s2, s2⟩
        else
          let s3 := updateChatMessage s2 { message with status := "error" }
          ⟨500, some messageHistory, some s2, s3⟩

/-! ## Metrics (src/db/metrics.go)

The two percentage functions consume SQL aggregate totals; the totals are
parameters.  SatsPaidPercentage works on Go uint (64-bit): the product
satsPaid * 100 wraps mod 2^64.  math.Round(float64(v)) is the identity for
an integer v < 2^53, the regime the theorems restrict to. -/

def SatsPaidPercentage (satsPosted satsPaid : Nat) : Nat :=
  if satsPaid ≠ 0 ∧ satsPosted ≠ 0 then satsPaid * 100 % 2 ^ 64 / satsPosted
  else 0

/-- Two-complement wrap of a 64-bit signed integer. -/
def wrapInt64 (x : Int) : Int := (x + 2 ^ 63) % 2 ^ 64 - 2 ^ 63

/-- db.BountiesPaidPercentage (src/db/metrics.go:178) over the two int64
SQL counts: the product wraps in int64, Go integer division truncates
toward zero, and math.Round(float64(v)) is the identity for an integer
v with magnitude below 2^53, the regime the theorems restrict to. -/
def BountiesPaidPercentage (bountiesPosted bountiesPaid : Int) : Int :=
  if bountiesPaid ≠ 0 ∧ bountiesPosted ≠ 0 then
    Int.tdiv (wrapInt64 (bountiesPaid * 100)) bountiesPosted
  else 0

/-! ## Theorems -/

/-- C1: converting a ticket with title T, description D, phase P and a
feature whose row carries workspace W yields a bounty with Title T,
Description D, PhaseUuid P, WorkspaceUuid W, Type freelance_job_request,
Price 21 and Show true. -/
theorem createBountyFromTicket_derived_fields
    (s : DBState) (t : Tickets) (feat : WorkspaceFeatures) (pubkey : String)
    (now : Nat)
    (hfind : s.features.find? (fun f => f.uuid == t.featureUUID) = some feat) :
    (createBountyFromTicket s t pubkey now).fst.title = t.name ∧
    (createBountyFromTicket s t pubkey now).fst.description = t.description ∧
    (createBountyFromTicket s t pubkey now).fst.phaseUuid = t.phaseUUID ∧
    (createBountyFromTicket s t pubkey now).fst.workspaceUuid = feat.workspaceUuid ∧
    (createBountyFromTicket s t pubkey now).fst.type = "freelance_job_request" ∧
    (createBountyFromTicket s t pubkey now).fst.price = 21 ∧
    (createBountyFromTicket s t pubkey now).fst.showFlag = true := by
  simp [createBountyFromTicket, getFeatureByUuid, hfind]

/-- Witness for C1 at a concrete store holding one feature row. -/
theorem createBountyFromTicket_derived_fields_witness :
    ((DBState.mk [] [⟨1, "F", "W", "feat", "", ""⟩] [] [] []).features.find?
        (fun f => f.uuid == (Tickets.mk "U" "T" "D" "draft" "F" "P" 0 0).featureUUID) =
      some ⟨1, "F", "W", "feat", "", ""⟩) ∧
    ((createBountyFromTicket (DBState.mk [] [⟨1, "F", "W", "feat", "", ""⟩] [] [] [])
        (Tickets.mk "U" "T" "D" "draft" "F" "P" 0 0) "pk" 7).fst.title =
          (Tickets.mk "U" "T" "D" "draft" "F" "P" 0 0).name ∧
     (createBountyFromTicket (DBState.mk [] [⟨1, "F", "W", "feat", "", ""⟩] [] [] [])
        (Tickets.mk "U" "T" "D" "draft" "F" "P" 0 0) "pk" 7).fst.description =
          (Tickets.mk "U" "T" "D" "draft" "F" "P" 0 0).description ∧
     (createBountyFromTicket (DBState.mk [] [⟨1, "F", "W", "feat", "", ""⟩] [] [] [])
        (Tickets.mk "U" "T" "D" "draft" "F" "P" 0 0) "pk" 7).fst.phaseUuid =
          (Tickets.mk "U" "T" "D" "draft" "F" "P" 0 0).phaseUUID ∧
     (createBountyFromTicket (DBState.mk [] [⟨1, "F", "W", "feat", "", ""⟩] [] [] [])
        (Tickets.mk "U" "T" "D" "draft" "F" "P" 0 0) "pk" 7).fst.workspaceUuid =
          (WorkspaceFeatures.mk 1 "F" "W" "feat" "" "").workspaceUuid ∧
     (createBountyFromTicket (DBState.mk [] [⟨1, "F", "W", "feat", "", ""⟩] [] [] [])
        (Tickets.mk "U" "T" "D" "draft" "F" "P" 0 0) "pk" 7).fst.type =
          "freelance_job_request" ∧
     (createBountyFromTicket (DBState.mk [] [⟨1, "F", "W", "feat", "", ""⟩] [] [] [])
        (Tickets.mk "U" "T" "D" "draft" "F" "P" 0 0) "pk" 7).fst.price = 21 ∧
     (createBountyFromTicket (DBState.mk [] [⟨1, "F", "W", "feat", "", ""⟩] [] [] [])
        (Tickets.mk "U" "T" "D" "draft" "F" "P" 0 0) "pk" 7).fst.showFlag = true) :=
  ⟨by decide,
   createBountyFromTicket_derived_fields _ _ _ "pk" 7 (by decide)⟩

/-- C4: a ticket upsert whose UUID is the nil UUID is rejected with a
validation error by both upsert entry points and leaves the store
untouched. -/
theorem ticket_upsert_nil_uuid_rejected
    (s : DBState) (t : Tickets) (now : Nat) (h : t.uuid = uuidNil) :
    createOrEditTicket s t now = (.error "ticket UUID is required", s) ∧
    updateTicket s t now = (.error "ticket UUID is required", s) := by
  constructor
  · simp [createOrEditTicket, h]
  · simp [updateTicket, h]

/-- Witness for C4 on a concrete nil-UUID ticket. -/
theorem ticket_upsert_nil_uuid_rejected_witness :
    (Tickets.mk "" "n" "d" "" "f" "p" 0 0).uuid = uuidNil ∧
    (createOrEditTicket (DBState.mk [] [] [] [] [])
        (Tickets.mk "" "n" "d" "" "f" "p" 0 0) 3 =
      (.error "ticket UUID is required", DBState.mk [] [] [] [] []) ∧
     updateTicket (DBState.mk [] [] [] [] [])
        (Tickets.mk "" "n" "d" "" "f" "p" 0 0) 3 =
      (.error "ticket UUID is required", DBState.mk [] [] [] [] [])) :=
  ⟨rfl, ticket_upsert_nil_uuid_rejected _ _ 3 rfl⟩

/-- C5: a ticket upsert whose status is non-empty and not one of the seven
enumerated values is rejected with an error by both upsert entry points
before any mutation. -/
theorem ticket_upsert_invalid_status_rejected
    (s : DBState) (t : Tickets) (now : Nat)
    (hne : t.status ≠ "")
    (hnot : t.status ∉ [DraftTicket, ReadyTicket, InProgressTicket, TestTicket,
      DeployTicket, PayTicket, CompletedTicket]) :
    (∃ msg, createOrEditTicket s t now = (.error msg, s)) ∧
    (∃ msg, updateTicket s t now = (.error msg, s)) := by
  have hvalid : IsValidTicketStatus t.status = false := by
    simp only [List.mem_cons, List.not_mem_nil, or_false] at hnot
    push_neg at hnot
    obtain ⟨h1, h2, h3, h4, h5, h6, h7⟩ := hnot
    simp [IsValidTicketStatus, h1, h2, h3, h4, h5, h6, h7]
  constructor
  · by_cases hu : t.uuid = uuidNil
    · exact ⟨"ticket UUID is required", by simp [createOrEditTicket, hu]⟩
    · exact ⟨"invalid ticket status", by simp [createOrEditTicket, hu, hne, hvalid]⟩
  · by_cases hu : t.uuid = uuidNil
    · exact ⟨"ticket UUID is required", by simp [updateTicket, hu]⟩
    · exact ⟨"invalid ticket status", by simp [updateTicket, hu, hne, hvalid]⟩

/-- Witness for C5 on a concrete bogus-status ticket. -/
theorem ticket_upsert_invalid_status_rejected_witness :
    (Tickets.mk "U" "n" "d" "bogus" "f" "p" 0 0).status ≠ "" ∧
    (Tickets.mk "U" "n" "d" "bogus" "f" "p" 0 0).status ∉
      [DraftTicket, ReadyTicket, InProgressTicket, TestTicket,
       DeployTicket, PayTicket, CompletedTicket] ∧
    ((∃ msg, createOrEditTicket (DBState.mk [] [] [] [] [])
        (Tickets.mk "U" "n" "d" "bogus" "f" "p" 0 0) 3 =
          (.error msg, DBState.mk [] [] [] [] [])) ∧
     (∃ msg, updateTicket (DBState.mk [] [] [] [] [])
        (Tickets.mk "U" "n" "d" "bogus" "f" "p" 0 0) 3 =
          (.error msg, DBState.mk [] [] [] [] []))) :=
  ⟨by decide, by decide,
   ticket_upsert_invalid_status_rejected _ _ 3 (by decide) (by decide)⟩

/-- C2: converting a ticket UUID that identifies no stored ticket, with an
authenticated caller, answers not-found (404) and creates zero bounty
rows. -/
theorem ticketToBounty_unknown_ticket_not_found
    (s : DBState) (pubkey u : String) (now : Nat)
    (hp : pubkey ≠ "") (hu : u ≠ "")
    (hmiss : ∀ t ∈ s.tickets, t.uuid ≠ u) :
    (ticketToBounty s pubkey u now).status = 404 ∧
    (ticketToBounty s pubkey u now).db.bounties = s.bounties := by
  have hfind : s.tickets.find? (fun t => t.uuid == u) = none := by
    rw [List.find?_eq_none]
    intro t ht
    simpa using hmiss t ht
  constructor
  · simp [ticketToBounty, hp, hu, getTicket, hfind]
  · simp [ticketToBounty, hp, hu, getTicket, hfind]

/-- Witness for C2 on a store holding one unrelated ticket. -/
theorem ticketToBounty_unknown_ticket_not_found_witness :
    ("pk" : String) ≠ "" ∧ ("B" : String) ≠ "" ∧
    (∀ t ∈ (DBState.mk [] [] [] [Tickets.mk "A" "n" "d" "draft" "f" "p" 0 0]
      [NewBounty.mk "t" "d" "p" "f" "w" "o" "ty" "wt" 1 0 true []]).tickets,
        t.uuid ≠ "B") ∧
    ((ticketToBounty (DBState.mk [] [] [] [Tickets.mk "A" "n" "d" "draft" "f" "p" 0 0]
        [NewBounty.mk "t" "d" "p" "f" "w" "o" "ty" "wt" 1 0 true []])
        "pk" "B" 5).status = 404 ∧
     (ticketToBounty (DBState.mk [] [] [] [Tickets.mk "A" "n" "d" "draft" "f" "p" 0 0]
        [NewBounty.mk "t" "d" "p" "f" "w" "o" "ty" "wt" 1 0 true []])
        "pk" "B" 5).db.bounties =
       (DBState.mk [] [] [] [Tickets.mk "A" "n" "d" "draft" "f" "p" 0 0]
        [NewBounty.mk "t" "d" "p" "f" "w" "o" "ty" "wt" 1 0 true []]).bounties) :=
  ⟨by decide, by decide, by decide,
   ticketToBounty_unknown_ticket_not_found _ "pk" "B" 5 (by decide) (by decide)
     (by decide)⟩

/-- C3: an authenticated, validation-passing feature creation whose
referenced workspace UUID resolves to no stored workspace fails with 401
(an authorization-class status, not 404) and persists no feature row. -/
theorem createOrEditFeatures_unknown_workspace_unauthorized
    (s : DBState) (pubkey : String) (f : WorkspaceFeatures) (newUuid : String)
    (valid : WorkspaceFeatures → Bool)
    (hp : pubkey ≠ "")
    (hv : valid (featuresWithAudit pubkey f newUuid) = true)
    (hw : f.workspaceUuid ≠ "")
    (hmiss : ∀ w ∈ s.workspaces, w.uuid ≠ f.workspaceUuid) :
    createOrEditFeatures s pubkey f newUuid valid = ⟨401, s⟩ := by
  have hwa : (featuresWithAudit pubkey f newUuid).workspaceUuid = f.workspaceUuid := by
    simp only [featuresWithAudit]
    split <;> rfl
  have hfindw : s.workspaces.find?
      (fun w => w.uuid == (featuresWithAudit pubkey f newUuid).workspaceUuid) = none := by
    rw [List.find?_eq_none]
    intro w hws
    rw [hwa]
    simpa using hmiss w hws
  have hne : (getWorkspaceByUuid s
      (featuresWithAudit pubkey f newUuid).workspaceUuid).uuid ≠
      (featuresWithAudit pubkey f newUuid).workspaceUuid := by
    rw [getWorkspaceByUuid, hfindw, hwa]
    exact fun h => hw h.symm
  simp [createOrEditFeatures, hp, hv, hne]

/-- Witness for C3 on a store holding one unrelated workspace. -/
theorem createOrEditFeatures_unknown_workspace_unauthorized_witness :
    ("pk" : String) ≠ "" ∧
    ((fun _ => true) (featuresWithAudit "pk"
      (WorkspaceFeatures.mk 0 "FU" "W2" "feat" "" "") "X") = true) ∧
    (WorkspaceFeatures.mk 0 "FU" "W2" "feat" "" "").workspaceUuid ≠ "" ∧
    (∀ w ∈ (DBState.mk [Workspace.mk "W1" "o" "n"] [] [] [] []).workspaces,
      w.uuid ≠ (WorkspaceFeatures.mk 0 "FU" "W2" "feat" "" "").workspaceUuid) ∧
    createOrEditFeatures (DBState.mk [Workspace.mk "W1" "o" "n"] [] [] [] [])
      "pk" (WorkspaceFeatures.mk 0 "FU" "W2" "feat" "" "") "X" (fun _ => true) =
      ⟨401, DBState.mk [Workspace.mk "W1" "o" "n"] [] [] [] []⟩ :=
  ⟨by decide, by decide, by decide, by decide,
   createOrEditFeatures_unknown_workspace_unauthorized _ "pk" _ "X" _
     (by decide) (by decide) (by decide) (by decide)⟩

/-- C6: a partial update of an existing ticket through the upsert leaves
the fields absent (zero-valued) in the payload at their stored values:
with name, feature UUID and phase UUID omitted, the updated row keeps the
existing name, feature UUID and phase UUID, while a supplied description
or status is applied. -/
theorem ticket_partial_update_preserves_omitted_fields
    (s : DBState) (t ex : Tickets) (now : Nat)
    (hfind : s.tickets.find? (fun e => e.uuid == t.uuid) = some ex)
    (huuid : t.uuid ≠ uuidNil)
    (hstatus : t.status = "" ∨ IsValidTicketStatus t.status = true)
    (hname : t.name = "") (hfeat : t.featureUUID = "") (hphase : t.phaseUUID = "") :
    ∃ r, (createOrEditTicket s t now).fst = .ok r ∧
      r.name = ex.name ∧ r.featureUUID = ex.featureUUID ∧
      r.phaseUUID = ex.phaseUUID ∧
      (t.description ≠ "" → r.description = t.description) ∧
      (t.status ≠ "" → r.status = t.status) := by
  have hcond : ¬(t.status ≠ "" ∧ IsValidTicketStatus t.status = false) := by
    rcases hstatus with h | h
    · exact fun hc => hc.1 h
    · exact fun hc => by rw [h] at hc; exact absurd hc.2 (by simp)
  refine ⟨mergeNonZero ex { t with updatedAt := now }, ?_, ?_, ?_, ?_, ?_, ?_⟩
  · simp [createOrEditTicket, huuid, hcond, hfind]
  · simp [mergeNonZero, hname]
  · simp [mergeNonZero, hfeat]
  · simp [mergeNonZero, hphase]
  · intro hd; simp [mergeNonZero, hd]
  · intro hs1; simp [mergeNonZero, hs1]

/-- Witness for C6: updating only description and status of a stored
ticket. -/
theorem ticket_partial_update_preserves_omitted_fields_witness :
    ((DBState.mk [] [] [] [Tickets.mk "U" "orig-name" "orig-desc" "draft" "F" "P" 1 1]
       []).tickets.find?
        (fun e => e.uuid == (Tickets.mk "U" "" "new-desc" "ready" "" "" 0 0).uuid) =
      some (Tickets.mk "U" "orig-name" "orig-desc" "draft" "F" "P" 1 1)) ∧
    (Tickets.mk "U" "" "new-desc" "ready" "" "" 0 0).uuid ≠ uuidNil ∧
    ((Tickets.mk "U" "" "new-desc" "ready" "" "" 0 0).status = "" ∨
      IsValidTicketStatus (Tickets.mk "U" "" "new-desc" "ready" "" "" 0 0).status = true) ∧
    (Tickets.mk "U" "" "new-desc" "ready" "" "" 0 0).name = "" ∧
    (Tickets.mk "U" "" "new-desc" "ready" "" "" 0 0).featureUUID = "" ∧
    (Tickets.mk "U" "" "new-desc" "ready" "" "" 0 0).phaseUUID = "" ∧
    (∃ r, (createOrEditTicket
        (DBState.mk [] [] [] [Tickets.mk "U" "orig-name" "orig-desc" "draft" "F" "P" 1 1] [])
        (Tickets.mk "U" "" "new-desc" "ready" "" "" 0 0) 9).fst = .ok r ∧
      r.name = (Tickets.mk "U" "orig-name" "orig-desc" "draft" "F" "P" 1 1).name ∧
      r.featureUUID = (Tickets.mk "U" "orig-name" "orig-desc" "draft" "F" "P" 1 1).featureUUID ∧
      r.phaseUUID = (Tickets.mk "U" "orig-name" "orig-desc" "draft" "F" "P" 1 1).phaseUUID ∧
      ((Tickets.mk "U" "" "new-desc" "ready" "" "" 0 0).description ≠ "" →
        r.description = (Tickets.mk "U" "" "new-desc" "ready" "" "" 0 0).description) ∧
      ((Tickets.mk "U" "" "new-desc" "ready" "" "" 0 0).status ≠ "" →
        r.status = (Tickets.mk "U" "" "new-desc" "ready" "" "" 0 0).status)) :=
  ⟨by decide, by decide, by decide, by decide, by decide, by decide,
   ticket_partial_update_preserves_omitted_fields _ _ _ 9 (by decide) (by decide)
     (by decide) (by decide) (by decide) (by decide)⟩

/-- C7: listing bounties by a feature/phase pair with zero matching
bounties answers not-found (404), not an empty list with success, for any
authenticated caller. -/
theorem bounties_by_feature_phase_empty_not_found
    (s : DBState) (pubkey fu pu : String)
    (hp : pubkey ≠ "")
    (hempty : ∀ b ∈ s.bounties, ¬(b.featureUuid = fu ∧ b.phaseUuid = pu)) :
    getBountiesByFeatureAndPhaseUuid s pubkey fu pu = ⟨404, s⟩ := by
  have hfilter : s.bounties.filter
      (fun b => b.featureUuid == fu && b.phaseUuid == pu) = [] := by
    rw [List.filter_eq_nil_iff]
    intro b hb
    simpa using hempty b hb
  simp [getBountiesByFeatureAndPhaseUuid, hp, getBountiesByFeatureAndPhaseUuidDb,
    hfilter]

/-- Witness for C7: a store whose only bounty sits on another
feature/phase pair. -/
theorem bounties_by_feature_phase_empty_not_found_witness :
    ("pk" : String) ≠ "" ∧
    (∀ b ∈ (DBState.mk [] [] [] []
        [NewBounty.mk "t" "d" "P1" "F1" "w" "o" "ty" "wt" 1 0 true []]).bounties,
      ¬(b.featureUuid = "F2" ∧ b.phaseUuid = "P2")) ∧
    getBountiesByFeatureAndPhaseUuid
      (DBState.mk [] [] [] []
        [NewBounty.mk "t" "d" "P1" "F1" "w" "o" "ty" "wt" 1 0 true []])
      "pk" "F2" "P2" =
      ⟨404, DBState.mk [] [] [] []
        [NewBounty.mk "t" "d" "P1" "F1" "w" "o" "ty" "wt" 1 0 true []]⟩ :=
  ⟨by decide, by decide,
   bounties_by_feature_phase_empty_not_found _ "pk" "F2" "P2" (by decide)
     (by decide)⟩

/-- Helper: the GetFeatureStories loop leaves the store untouched when the
feature lookup misses, whatever the remaining stories. -/
theorem getFeatureStoriesLoop_fixed_on_miss
    (s : DBState) (fu : String) (ids : Nat → String) (now : Nat)
    (hfind : s.features.find? (fun f => f.uuid == fu) = none) :
    ∀ (stories : List FeatureStories) (i : Nat),
      getFeatureStoriesLoop s fu stories ids i now = s := by
  intro stories
  induction stories with
  | nil => intro i; rfl
  | cons st rest ih =>
      intro i
      rw [getFeatureStoriesLoop]
      have hdef : getFeatureByUuid s fu = default := by
        simp [getFeatureByUuid, hfind]
      rw [hdef]
      have hid : (default : WorkspaceFeatures).id = 0 := rfl
      rw [if_pos hid]
      exact ih (i + 1)

/-- C8: bulk story ingestion addressed to a feature UUID with no stored
feature row skips every story without reporting an error (status 200) and
leaves the store — in particular every feature's stories — unchanged. -/
theorem feature_stories_unknown_feature_skipped
    (s : DBState) (payload : FeatureStoriesReponse) (ids : Nat → String)
    (now : Nat)
    (hmiss : ∀ fe ∈ s.features, fe.uuid ≠ payload.output.featureUuid) :
    getFeatureStories s payload ids now = ⟨200, s⟩ := by
  have hfind : s.features.find?
      (fun f => f.uuid == payload.output.featureUuid) = none := by
    rw [List.find?_eq_none]
    intro f hf
    simpa using hmiss f hf
  rw [getFeatureStories, getFeatureStoriesLoop_fixed_on_miss s _ ids now hfind]

/-- Witness for C8: a two-story payload addressed to an absent feature
UUID over a store holding one unrelated feature. -/
theorem feature_stories_unknown_feature_skipped_witness :
    (∀ fe ∈ (DBState.mk [] [⟨1, "OTHER", "W", "feat", "", ""⟩] [] [] []).features,
      fe.uuid ≠ (FeatureStoriesReponse.mk
        (FeatureOutput.mk "FAKE" "ctx"
          [FeatureStories.mk "s1" "r1" 1,
           FeatureStories.mk "s2" "r2" 2])).output.featureUuid) ∧
    getFeatureStories (DBState.mk [] [⟨1, "OTHER", "W", "feat", "", ""⟩] [] [] [])
      (FeatureStoriesReponse.mk
        (FeatureOutput.mk "FAKE" "ctx"
          [FeatureStories.mk "s1" "r1" 1, FeatureStories.mk "s2" "r2" 2]))
      (fun _ => "sid") 7 =
      ⟨200, DBState.mk [] [⟨1, "OTHER", "W", "feat", "", ""⟩] [] [] []⟩ :=
  ⟨by decide,
   feature_stories_unknown_feature_skipped _ _ (fun _ => "sid") 7 (by decide)⟩

/-- C9: a SendMessage over a chat with n stored prior messages dispatches
a payload holding exactly min(n, 20) history entries — the last min(n, 20)
stored messages in order — and the new user message sits in the store with
status sending at the moment of dispatch. -/
theorem sendMessage_history_window_and_sending_persist
    (s : ChatState) (req : SendMessageRequest) (newId : String) (now : Nat)
    (dispatchOk : Bool) (c : String)
    (hws : req.workspaceUUID ≠ "")
    (hbrief : getProductBrief s req.workspaceUUID = .ok c) :
    (sendMessage s req newId now dispatchOk).payloadHistory =
      some (((getChatMessagesForChatID s req.chatID).drop
          ((getChatMessagesForChatID s req.chatID).length - 20)).map
        (fun m => HistEntry.mk m.role m.message)) ∧
    (((getChatMessagesForChatID s req.chatID).drop
        ((getChatMessagesForChatID s req.chatID).length - 20)).map
      (fun m => HistEntry.mk m.role m.message)).length =
      min (getChatMessagesForChatID s req.chatID).length 20 ∧
    (sendMessage s req newId now dispatchOk).dbAtDispatch =
      some (addChatMessage s
        (ChatMessage.mk newId req.chatID req.message "user" now "sending" "user")) ∧
    (ChatMessage.mk newId req.chatID req.message "user" now "sending" "user") ∈
      (addChatMessage s
        (ChatMessage.mk newId req.chatID req.message "user" now "sending"
          "user")).messages := by
  have hstart : (if (getChatMessagesForChatID s req.chatID).length > 20 then
      (getChatMessagesForChatID s req.chatID).length - 20 else 0) =
      (getChatMessagesForChatID s req.chatID).length - 20 := by
    by_cases h : (getChatMessagesForChatID s req.chatID).length > 20
    · rw [if_pos h]
    · rw [if_neg h]
      omega
  refine ⟨?_, ?_, ?_, ?_⟩
  · cases dispatchOk <;> simp [sendMessage, hws, hbrief, hstart]
  · rw [List.length_map, List.length_drop]
    omega
  · cases dispatchOk <;> simp [sendMessage, hws, hbrief, hstart, addChatMessage]
  · simp [addChatMessage]

/-- Witness for C9 over a one-message chat. -/
theorem sendMessage_history_window_and_sending_persist_witness :
    (SendMessageRequest.mk "c" "hello" "ws" "W").workspaceUUID ≠ "" ∧
    getProductBrief
      (ChatState.mk [("W", "brief")]
        [ChatMessage.mk "m1" "c" "one" "user" 1 "sent" "user"])
      (SendMessageRequest.mk "c" "hello" "ws" "W").workspaceUUID = .ok "brief" ∧
    ((sendMessage (ChatState.mk [("W", "brief")]
        [ChatMessage.mk "m1" "c" "one" "user" 1 "sent" "user"])
        (SendMessageRequest.mk "c" "hello" "ws" "W") "m9" 9 true).payloadHistory =
      some (((getChatMessagesForChatID (ChatState.mk [("W", "brief")]
          [ChatMessage.mk "m1" "c" "one" "user" 1 "sent" "user"])
          (SendMessageRequest.mk "c" "hello" "ws" "W").chatID).drop
            ((getChatMessagesForChatID (ChatState.mk [("W", "brief")]
              [ChatMessage.mk "m1" "c" "one" "user" 1 "sent" "user"])
              (SendMessageRequest.mk "c" "hello" "ws" "W").chatID).length - 20)).map
        (fun m => HistEntry.mk m.role m.message)) ∧
     (((getChatMessagesForChatID (ChatState.mk [("W", "brief")]
          [ChatMessage.mk "m1" "c" "one" "user" 1 "sent" "user"])
          (SendMessageRequest.mk "c" "hello" "ws" "W").chatID).drop
            ((getChatMessagesForChatID (ChatState.mk [("W", "brief")]
              [ChatMessage.mk "m1" "c" "one" "user" 1 "sent" "user"])
              (SendMessageRequest.mk "c" "hello" "ws" "W").chatID).length - 20)).map
        (fun m => HistEntry.mk m.role m.message)).length =
       min (getChatMessagesForChatID (ChatState.mk [("W", "brief")]
          [ChatMessage.mk "m1" "c" "one" "user" 1 "sent" "user"])
          (SendMessageRequest.mk "c" "hello" "ws" "W").chatID).length 20 ∧
     (sendMessage (ChatState.mk [("W", "brief")]
        [ChatMessage.mk "m1" "c" "one" "user" 1 "sent" "user"])
        (SendMessageRequest.mk "c" "hello" "ws" "W") "m9" 9 true).dbAtDispatch =
      some (addChatMessage (ChatState.mk [("W", "brief")]
          [ChatMessage.mk "m1" "c" "one" "user" 1 "sent" "user"])
        (ChatMessage.mk "m9" (SendMessageRequest.mk "c" "hello" "ws" "W").chatID
          (SendMessageRequest.mk "c" "hello" "ws" "W").message "user" 9 "sending"
          "user")) ∧
     (ChatMessage.mk "m9" (SendMessageRequest.mk "c" "hello" "ws" "W").chatID
        (SendMessageRequest.mk "c" "hello" "ws" "W").message "user" 9 "sending"
        "user") ∈
      (addChatMessage (ChatState.mk [("W", "brief")]
          [ChatMessage.mk "m1" "c" "one" "user" 1 "sent" "user"])
        (ChatMessage.mk "m9" (SendMessageRequest.mk "c" "hello" "ws" "W").chatID
          (SendMessageRequest.mk "c" "hello" "ws" "W").message "user" 9 "sending"
          "user")).messages) :=
  ⟨by decide, rfl,
   sendMessage_history_window_and_sending_persist _ _ "m9" 9 true "brief"
     (by decide) rfl⟩

/-- C10: neither percentage metric divides by zero: a zero paid or posted
total yields 0, and otherwise the integer percentage paid * 100 / posted is
returned (within the wrap-free regime of the machine integers). -/
theorem paid_percentage_zero_guard_and_formula
    (satsPosted satsPaid : Nat) (bountiesPosted bountiesPaid : Int)
    (hs : satsPaid * 100 < 2 ^ 53)
    (hbp : 0 ≤ bountiesPosted) (hbn : 0 ≤ bountiesPaid)
    (hb2 : bountiesPaid * 100 < 2 ^ 53) :
    (satsPaid = 0 ∨ satsPosted = 0 → SatsPaidPercentage satsPosted satsPaid = 0) ∧
    (satsPaid ≠ 0 → satsPosted ≠ 0 →
      SatsPaidPercentage satsPosted satsPaid = satsPaid * 100 / satsPosted) ∧
    (bountiesPaid = 0 ∨ bountiesPosted = 0 →
      BountiesPaidPercentage bountiesPosted bountiesPaid = 0) ∧
    (bountiesPaid ≠ 0 → bountiesPosted ≠ 0 →
      BountiesPaidPercentage bountiesPosted bountiesPaid =
        bountiesPaid * 100 / bountiesPosted) := by
  refine ⟨?_, ?_, ?_, ?_⟩
  · rintro (h | h) <;> simp [SatsPaidPercentage, h]
  · intro h1 h2
    have hmod : satsPaid * 100 % 2 ^ 64 = satsPaid * 100 :=
      Nat.mod_eq_of_lt (lt_trans hs (by norm_num))
    unfold SatsPaidPercentage
    rw [if_pos ⟨h1, h2⟩, hmod]
  · rintro (h | h) <;> simp [BountiesPaidPercentage, h]
  · intro h1 h2
    have hx : 0 ≤ bountiesPaid * 100 := mul_nonneg hbn (by norm_num)
    have hwrap : wrapInt64 (bountiesPaid * 100) = bountiesPaid * 100 := by
      unfold wrapInt64
      have h63 : bountiesPaid * 100 < 2 ^ 63 := lt_trans hb2 (by norm_num)
      have hm : (bountiesPaid * 100 + 2 ^ 63) % 2 ^ 64 =
          bountiesPaid * 100 + 2 ^ 63 :=
        Int.emod_eq_of_lt (by omega) (by omega)
      omega
    rw [BountiesPaidPercentage, if_pos ⟨h1, h2⟩, hwrap,
      Int.tdiv_eq_ediv hx hbp]

/-- Witness for C10 at posted 200 / paid 50 sats and posted 4 / paid 1
bounties. -/
theorem paid_percentage_zero_guard_and_formula_witness :
    (50 : Nat) * 100 < 2 ^ 53 ∧ (0 : Int) ≤ 4 ∧ (0 : Int) ≤ 1 ∧
    (1 : Int) * 100 < 2 ^ 53 ∧
    (((50 : Nat) = 0 ∨ (200 : Nat) = 0 → SatsPaidPercentage 200 50 = 0) ∧
     ((50 : Nat) ≠ 0 → (200 : Nat) ≠ 0 →
       SatsPaidPercentage 200 50 = 50 * 100 / 200) ∧
     ((1 : Int) = 0 ∨ (4 : Int) = 0 → BountiesPaidPercentage 4 1 = 0) ∧
     ((1 : Int) ≠ 0 → (4 : Int) ≠ 0 →
       BountiesPaidPercentage 4 1 = 1 * 100 / 4)) :=
  ⟨by norm_num, by norm_num, by norm_num, by norm_num,
   paid_percentage_zero_guard_and_formula 200 50 4 1 (by norm_num) (by norm_num)
     (by norm_num) (by norm_num)⟩

end SphinxTribes
